import Mathlib

/-!
Verification development for the demo-generator Apps Script repository
(src/Code.js).  The file shallowly embeds the server-side logic: JSON
values are an inductive type, the per-user property store is an explicit
record threaded through every operation, remote HTTP calls are outcome
parameters, and JavaScript exceptions are `Except` errors.  `Code.js`
contains three near-duplicate revisions of the same logic; functions are
suffixed `_v1` (lines 1-629), `_v2` (lines 630-1107) and `_v3`
(lines 1108-1539) where the revisions differ.
-/

namespace DemoGen

/-- JSON values as produced by `JSON.parse`.  Objects are modelled with
unique keys (the parse of a serialized object), so field lookup order is
irrelevant. -/
inductive Json where
  | null
  | bool (b : Bool)
  | num (n : Int)
  | str (s : String)
  | arr (elems : List Json)
  | obj (fields : List (String × Json))

/-- Field lookup in an object field list. -/
def lookupField : List (String × Json) → String → Option Json
  | [], _ => none
  | (k, v) :: rest, key => if k = key then some v else lookupField rest key

/-- JavaScript property access `j[key]`; `none` models `undefined`
(access on a primitive yields `undefined`, access on null throws and is
guarded separately where the source can reach it). -/
def jsGet (j : Json) (key : String) : Option Json :=
  match j with
  | .obj fields => lookupField fields key
  | _ => none

/-- JavaScript truthiness of a JSON value. -/
def jsTruthy : Json → Bool
  | .null => false
  | .bool b => b
  | .num n => n != 0
  | .str s => s != ""
  | .arr _ => true
  | .obj _ => true

/-- Truthiness of a possibly-undefined value (`undefined` is falsy). -/
def jsTruthyO : Option Json → Bool
  | none => false
  | some v => jsTruthy v

/-- `Array.isArray` on a possibly-undefined value. -/
def jsIsArray : Option Json → Bool
  | some (.arr _) => true
  | _ => false

/-- Whether a JSON value is `null`. -/
def jsIsNull : Json → Bool
  | .null => true
  | _ => false

/-- Remove a field from an object subsitute of the `delete` operator;
`delete` on a primitive is a no-op. -/
def jsDelete (j : Json) (key : String) : Json :=
  match j with
  | .obj fields => .obj (fields.filter (fun f => f.1 != key))
  | _ => j

/-- Field assignment `j[key] = v`; on a non-object (sloppy-mode
primitive) the assignment is a silent no-op.  The `null` base case,
which would throw, is unreachable at the one use site (the base was
checked truthy). -/
def jsSet (j : Json) (key : String) (v : Json) : Json :=
  match j with
  | .obj fields => .obj (setField fields key v)
  | _ => j
where
  setField : List (String × Json) → String → Json → List (String × Json)
    | [], key, v => [(key, v)]
    | (k, w) :: rest, key, v =>
      if k = key then (key, v) :: rest else (k, w) :: setField rest key v

/-- Truthiness of a string-or-null argument (`!userEmail`): `none`
models `null`/`undefined`, and the empty string is falsy too. -/
def jsStrFalsy : Option String → Bool
  | none => true
  | some s => s == ""

/-- The two per-user properties `savedProvisionResult` and
`savedDemoScript`.  Each slot holds the parse outcome of the stored
string: `none` = property absent, `some none` = present but not valid
JSON (`JSON.parse` throws), `some (some j)` = present and parses to
`j`.  `JSON.stringify` always stores a parsable string, so `save`
writes `some (some j)`. -/
structure Store where
  savedProvisionResult : Option (Option Json)
  savedDemoScript : Option (Option Json)

/-- What `loadDemoState` hands back when state exists. -/
structure LoadState where
  provisionResult : Json
  demoScript : Option Json

/-- Outcome of one `UrlFetchApp.fetch` call: an HTTP response (status
code plus parsed body) or a thrown network exception. -/
inductive FetchOutcome where
  | response (code : Nat) (body : Json)
  | netError (msg : String)

/-- `saveDemoState(provisionResult, demoScript)`: each argument is
stored (stringified) only when truthy; `none` models passing `null`. -/
def saveDemoState (provisionResult demoScript : Option Json) (s : Store) : Store :=
  let s1 := if jsTruthyO provisionResult then
    { s with savedProvisionResult := some provisionResult } else s
  if jsTruthyO demoScript then { s1 with savedDemoScript := some demoScript } else s1

/-- `clearDemoState()`: deletes both properties. -/
def clearDemoState (_ : Store) : Store :=
  { savedProvisionResult := none, savedDemoScript := none }

/-- `loadDemoState` of revision 1 (Code.js 336-355): reads the stored
provision result, parses it and the stored script; any parse exception
is caught, the store is cleared, and `null` is returned.  This revision
does NOT strip the password field from the parsed provision result. -/
def loadDemoState_v1 (s : Store) : Option LoadState × Store :=
  match s.savedProvisionResult with
  | none => (none, s)
  | some none => (none, clearDemoState s)
  | some (some pr) =>
    match s.savedDemoScript with
    | none => (some ⟨pr, none⟩, s)
    | some none => (none, clearDemoState s)
    | some (some d) => (some ⟨pr, some d⟩, s)

/-- The password-stripping block of revisions 2 and 3: delete the
`password` field when it is truthy. -/
def stripTruthyPassword (pr : Json) : Json :=
  match jsGet pr "password" with
  | some v => if jsTruthy v then jsDelete pr "password" else pr
  | none => pr

/-- `loadDemoState` of revision 3 (Code.js 1295-1312): same reads, but
NO try/catch, so a parse failure propagates as an exception; on success
the truthy password field is deleted before returning.  Accessing
`.password` on a parsed `null` would also throw. -/
def loadDemoState_v3 (s : Store) : Except String (Option LoadState) :=
  match s.savedProvisionResult with
  | none => .ok none
  | some none => .error "SyntaxError: Unexpected token in JSON"
  | some (some pr) =>
    match s.savedDemoScript with
    | some none => .error "SyntaxError: Unexpected token in JSON"
    | ds =>
      let dsv : Option Json := match ds with
        | some (some d) => some d
        | _ => none
      if jsIsNull pr then .error "TypeError: Cannot read properties of null"
      else .ok (some ⟨stripTruthyPassword pr, dsv⟩)

/-- One indexing step `s[Math.floor(Math.random() * s.length)]` of
`generateRandomPassword_`: `rand i` models the `i`-th draw
`Math.floor(Math.random() * n)` (reduced mod `n` so it is in range, as
`Math.random() < 1` guarantees in the source). -/
def pwPick (rand : Nat → Nat) (s : String) (i : Nat) : Char :=
  s.toList.getD (rand i % s.toList.length) ' '

/-- The character sequence `generateRandomPassword_(length)` builds
before its final shuffle (Code.js 531-544): one forced character from
each of the four classes, then `length - 4` characters from the union
alphabet. -/
def passwordChars (length : Nat) (rand : Nat → Nat) : List Char :=
  [pwPick rand "ABCDEFGHIJKLMNOPQRSTUVWXYZ" 0,
   pwPick rand "abcdefghijklmnopqrstuvwxyz" 1,
   pwPick rand "0123456789" 2,
   pwPick rand "!@#$%^&*()" 3]
  ++ (List.range (length - 4)).map (fun i =>
       pwPick rand ("ABCDEFGHIJKLMNOPQRSTUVWXYZ" ++ "abcdefghijklmnopqrstuvwxyz"
         ++ "0123456789" ++ "!@#$%^&*()") (4 + i))

/-- `generateRandomPassword_(length)` (Code.js 531-546): the built
characters, shuffled by `password.split('').sort(() => 0.5 - Math.random()).join('')`.
`shuffle` models that sort-with-random-comparator, which returns some
permutation of its input. -/
def generateRandomPassword_ (length : Nat) (rand : Nat → Nat)
    (shuffle : List Char → List Char) : String :=
  String.mk (shuffle (passwordChars length rand))

/-- `requestingUserEmail.split('@')[0].toLowerCase().replace(/[^a-z0-9]/g, '')`
(Code.js 439, 948, 1423): the part before the first `@` (the whole
string when there is none), lower-cased, with every character outside
`[a-z0-9]` removed. -/
def demoLocalPart (requestingUserEmail : String) : String :=
  String.mk (((requestingUserEmail.toList.takeWhile (fun c => c != '@')).map Char.toLower).filter
    (fun c => ('a' ≤ c && c ≤ 'z') || ('0' ≤ c && c ≤ '9')))

/-- Revision 1 demo address (Code.js 439-440): stripped local part plus
the configured primary domain. -/
def derivedEmail_v1 (requestingUserEmail domain : String) : String :=
  demoLocalPart requestingUserEmail ++ "@" ++ domain

/-- Revision 2 prefix computation (Code.js 948-951): same derivation,
except that for the one requester `mawi@google.com` the prefix is
`"mawi"` followed by `Math.floor(Math.random() * 1000)`, modelled as
`r % 1000`. -/
def demoLocalPart_v2 (requestingUserEmail : String) (r : Nat) : String :=
  if requestingUserEmail = "mawi@google.com" then "mawi" ++ toString (r % 1000)
  else demoLocalPart requestingUserEmail

/-- Revision 2 demo address (Code.js 948-952); the domain is the
constant `cymbal.se` there. -/
def derivedEmail_v2 (requestingUserEmail : String) (r : Nat) : String :=
  demoLocalPart_v2 requestingUserEmail r ++ "@" ++ "cymbal.se"

/-- Modelled from the spec (section 4.1), for the refinement claim C3:
the demo address is the local part of the requester email, lower-cased,
stripped of every character outside `[a-z0-9]`, concatenated with `@`
and the fixed primary domain. -/
def specDemoAddress (requesterEmail domain : String) : String :=
  String.mk (((requesterEmail.toList.takeWhile (fun c => c != '@')).map Char.toLower).filter
    (fun c => ('a' ≤ c && c ≤ 'z') || ('0' ≤ c && c ≤ '9'))) ++ "@" ++ domain

/-- `getAdminAccessToken` of revisions 1 and 2 (Code.js 595-603,
1090-1098): `some token` models a usable OAuth2 service; when the
service is unavailable the function THROWS
(`throw new Error("Could not get a valid OAuth2 service object. ...")`),
modelled as `Except.error`. -/
def getAdminAccessToken_v1 (service : Option String) : Except String String :=
  match service with
  | some token => .ok token
  | none => .error "Could not get a valid OAuth2 service object. Check server logs for details."

/-- `getAdminAccessToken` of revision 3 (Code.js 1539): the same logic
wrapped in try/catch, returning `null` instead of throwing. -/
def getAdminAccessToken_v3 (service : Option String) : Option String :=
  match service with
  | some token => some token
  | none => none

/-- A `{success:false, error: msg}` response object. -/
def failureRes (msg : String) : Json :=
  Json.obj [("success", Json.bool false), ("error", Json.str msg)]

/-- The bare `{success:true}` response of `deleteDemoAccount`. -/
def successDeleteRes : Json :=
  Json.obj [("success", Json.bool true)]

/-- Whether `body.name.givenName` would throw a TypeError: it does when
`body.name` is `undefined` or `null`. -/
def nameAccessThrows (body : Json) : Bool :=
  match jsGet body "name" with
  | none => true
  | some v => jsIsNull v

/-- Abstract message of the TypeError raised by reading a property of
`undefined`/`null`. -/
def typeErrorMsg : String := "TypeError: Cannot read properties"

/-- `body.name.k` once the base is known non-null. -/
def dirName (body : Json) (k : String) : Option Json :=
  (jsGet body "name").bind (fun nm => jsGet nm k)

/-- Render an optional field of an object literal: a field whose value
is JavaScript `undefined` is modelled as absent (JSON.stringify and the
RPC layer drop such fields). -/
def optField (k : String) : Option Json → List (String × Json)
  | some v => [(k, v)]
  | none => []

/-- The provisionResult object built by `getInitialAppState` on lookup
success (Code.js 83-88): derived email, explicit `password: null`, and
the directory record names. -/
def mkLoadedProvisionResult (primaryEmail : String) (body : Json) : Json :=
  Json.obj ([("email", Json.str primaryEmail), ("password", Json.null)]
    ++ optField "firstName" (dirName body "givenName")
    ++ optField "lastName" (dirName body "familyName"))

/-- `getInitialAppState` of revision 1 (Code.js 53-111).  Environment
inputs: the active user email (empty string when unidentifiable), the
OAuth2 service, the configured primary domain, and the outcome of the
directory GET.  Returns the client response and the updated store;
`Except.error` models an uncaught exception. -/
def getInitialAppState_v1 (requestingUserEmail : String) (service : Option String)
    (domain : String) (lookupOutcome : FetchOutcome) (s : Store) :
    Except String (Json × Store) :=
  if requestingUserEmail = "" then
    .ok (failureRes "Could not identify the requesting user.", s)
  else
    let primaryEmail := derivedEmail_v1 requestingUserEmail domain
    match getAdminAccessToken_v1 service with
    | .error e => .error e
    | .ok token =>
      if token = "" then
        .ok (failureRes "Authentication failed. Could not get admin token.", s)
      else
        match lookupOutcome with
        | .netError msg =>
          .ok (failureRes ("A network exception occurred during the initial check: " ++ msg), s)
        | .response code body =>
          if code = 200 then
            if nameAccessThrows body then
              .ok (failureRes ("A network exception occurred during the initial check: "
                    ++ typeErrorMsg), s)
            else
              let provisionResult := mkLoadedProvisionResult primaryEmail body
              let s1 := saveDemoState (some provisionResult) none s
              match loadDemoState_v1 s1 with
              | (savedState, s2) =>
                .ok (Json.obj [("success", Json.bool true),
                               ("provisionResult", provisionResult),
                               ("demoScript",
                                 match savedState with
                                 | some st => st.demoScript.getD Json.null
                                 | none => Json.null)], s2)
          else
            .ok (Json.obj [("success", Json.bool false)], clearDemoState s)

/-- The `{success:true, email, password:null, firstName, lastName}`
object `createDemoUserInRoot` returns for an existing account
(Code.js 454-460). -/
def mkFoundUserResult (primaryEmail : String) (body : Json) : Json :=
  Json.obj ([("success", Json.bool true), ("email", Json.str primaryEmail),
             ("password", Json.null)]
    ++ optField "firstName" (dirName body "givenName")
    ++ optField "lastName" (dirName body "familyName"))

/-- `createDemoUserInRoot` of revision 1 (Code.js 435-494): token, then
lookup; 200 returns the found record without password, 404 creates the
account with a fresh random password (included in the result exactly
when creation returns 200/201), anything else is a failure result. -/
def createDemoUserInRoot_v1 (requestingUserEmail firstName lastName : String)
    (service : Option String) (domain : String)
    (checkOutcome createOutcome : FetchOutcome)
    (rand : Nat → Nat) (shuffle : List Char → List Char) : Except String Json :=
  match getAdminAccessToken_v1 service with
  | .error e => .error e
  | .ok token =>
    if token = "" then
      .ok (failureRes "Could not get authentication token to manage users.")
    else
      let primaryEmail := derivedEmail_v1 requestingUserEmail domain
      match checkOutcome with
      | .netError msg => .ok (failureRes ("A network exception occurred: " ++ msg))
      | .response code body =>
        if code = 200 then
          if nameAccessThrows body then
            .ok (failureRes ("A network exception occurred: " ++ typeErrorMsg))
          else
            .ok (mkFoundUserResult primaryEmail body)
        else if code = 404 then
          let password := generateRandomPassword_ 14 rand shuffle
          match createOutcome with
          | .netError msg => .ok (failureRes ("A network exception occurred: " ++ msg))
          | .response ccode _ =>
            if ccode = 200 || ccode = 201 then
              .ok (Json.obj [("success", Json.bool true),
                             ("email", Json.str primaryEmail),
                             ("password", Json.str password),
                             ("firstName", Json.str firstName),
                             ("lastName", Json.str lastName)])
            else
              .ok (failureRes ("Failed to create user. Admin API responded with code "
                    ++ toString ccode ++ "."))
        else
          .ok (failureRes ("An unexpected error occurred. Code: " ++ toString code))

/-- `createUser` of revision 1 (Code.js 119-142): identify the
requester, provision via `createDemoUserInRoot`, and on success clear
the old state and save the fresh provision result. -/
def createUser_v1 (firstName lastName requestingUserEmail : String)
    (service : Option String) (domain : String)
    (checkOutcome createOutcome : FetchOutcome)
    (rand : Nat → Nat) (shuffle : List Char → List Char) (s : Store) :
    Except String (Json × Store) :=
  if requestingUserEmail = "" then
    .ok (failureRes "Could not identify the requesting user.", s)
  else
    match createDemoUserInRoot_v1 requestingUserEmail firstName lastName service domain
        checkOutcome createOutcome rand shuffle with
    | .error e => .error e
    | .ok provisionResult =>
      if jsTruthyO (jsGet provisionResult "success") then
        .ok (provisionResult, saveDemoState (some provisionResult) none (clearDemoState s))
      else
        .ok (provisionResult, s)

/-- `resetPasswordForDemoUser` of revision 1 (Code.js 148-200): load
state, require a provision result with an email, get a token (throws
when the service is down), generate a fresh password, PUT it, and on
200 write the password back into the saved provision result. -/
def resetPasswordForDemoUser_v1 (service : Option String)
    (updateOutcome : FetchOutcome)
    (rand : Nat → Nat) (shuffle : List Char → List Char) (s : Store) :
    Except String (Json × Store) :=
  match loadDemoState_v1 s with
  | (savedState, s1) =>
    match savedState with
    | none =>
      .ok (failureRes "No active demo user found in the session to reset the password for.", s1)
    | some st =>
      if !(jsTruthy st.provisionResult && jsTruthyO (jsGet st.provisionResult "email")) then
        .ok (failureRes "No active demo user found in the session to reset the password for.", s1)
      else
        match getAdminAccessToken_v1 service with
        | .error e => .error e
        | .ok token =>
          if token = "" then
            .ok (failureRes "Authentication failed. Could not get token to reset password.", s1)
          else
            let newPassword := generateRandomPassword_ 14 rand shuffle
            match updateOutcome with
            | .netError _ =>
              .ok (failureRes "A network exception occurred during password reset.", s1)
            | .response code _ =>
              if code = 200 then
                let pr := jsSet st.provisionResult "password" (Json.str newPassword)
                .ok (Json.obj [("success", Json.bool true),
                               ("password", Json.str newPassword)],
                     saveDemoState (some pr) st.demoScript s1)
              else
                .ok (failureRes ("Failed to reset password. Admin API responded with code "
                      ++ toString code ++ "."), s1)

/-- Outcome of `callGeminiAPI` as observed by `generateDemoScript`:
a `{success:false, error}` object, or `{success:true, text}` where
`textParse` is the `JSON.parse` outcome of the returned text and
`textTruthy` its JavaScript truthiness. -/
inductive GemResult where
  | failure (error : String)
  | success (textParse : Option Json) (textTruthy : Bool)

/-- The inline validation check of `generateDemoScript`
(Code.js 239, 777, 1258):
`!(!scriptObject.title || !scriptObject.steps || !Array.isArray(scriptObject.steps))`. -/
def scriptShapeOk (scriptObject : Json) : Bool :=
  jsTruthyO (jsGet scriptObject "title") && jsTruthyO (jsGet scriptObject "steps")
    && jsIsArray (jsGet scriptObject "steps")

/-- `generateDemoScript` of revision 1 (Code.js 208-260): load state
(revision-1 load, which clears on corruption), fail without a user,
propagate a model failure, then parse and validate the model text; a
parse or validation failure is caught and reported without saving, and
only a valid script is saved alongside the existing provision result.
The audit log (`logPromptAndOutput`) writes to a spreadsheet, not to
the property store, and swallows its own errors. -/
def generateDemoScript_v1 (gem : GemResult) (s : Store) : Json × Store :=
  match loadDemoState_v1 s with
  | (none, s1) =>
    (failureRes "No demo user found. Please create a demo account first.", s1)
  | (some st, s1) =>
    match gem with
    | .failure err => (failureRes ("Demo script generation failed: " ++ err), s1)
    | .success textParse textTruthy =>
      if !textTruthy then
        (failureRes "Demo script generation failed: undefined", s1)
      else
        match textParse with
        | none =>
          (failureRes "The AI returned malformed data that could not be read. Please try again.", s1)
        | some scriptObject =>
          if scriptShapeOk scriptObject then
            (Json.obj [("success", Json.bool true), ("demoScript", scriptObject)],
             saveDemoState (some st.provisionResult) (some scriptObject) s1)
          else
            (failureRes "The AI returned malformed data that could not be read. Please try again.",
             s1)

/-- `generateDemoScript` of revision 3 (Code.js 1228-1280): the
revision-3 load throws on a corrupt record (uncaught here), and the
validation block returns its own failure message instead of throwing. -/
def generateDemoScript_v3 (gem : GemResult) (s : Store) : Except String (Json × Store) :=
  match loadDemoState_v3 s with
  | .error e => .error e
  | .ok savedState =>
    match savedState with
    | none => .ok (failureRes "No demo user found. Please create a demo account first.", s)
    | some st =>
      if !(jsTruthy st.provisionResult) then
        .ok (failureRes "No demo user found. Please create a demo account first.", s)
      else
        match gem with
        | .failure err => .ok (failureRes ("Demo script generation failed: " ++ err), s)
        | .success textParse textTruthy =>
          if !textTruthy then
            .ok (failureRes "Demo script generation failed: undefined", s)
          else
            match textParse with
            | none =>
              .ok (failureRes "The AI returned malformed data that could not be read. Please try again.", s)
            | some scriptObject =>
              if scriptShapeOk scriptObject then
                .ok (Json.obj [("success", Json.bool true), ("demoScript", scriptObject)],
                     saveDemoState (some st.provisionResult) (some scriptObject) s)
              else
                .ok (failureRes "The AI response was missing the required title or steps fields. Please try generating the script again.", s)

/-- `resetPasswordForDemoUser` of revision 3 (Code.js 1168-1220): the
revision-3 load (which can throw on a corrupt record, uncaught here)
followed by the same flow as revision 1, except that this revision's
`getAdminAccessToken` returns `null` on failure, so the `!token` guard
turns token failure into a `{success:false, error}` result. -/
def resetPasswordForDemoUser_v3 (service : Option String)
    (updateOutcome : FetchOutcome)
    (rand : Nat → Nat) (shuffle : List Char → List Char) (s : Store) :
    Except String (Json × Store) :=
  match loadDemoState_v3 s with
  | .error e => .error e
  | .ok savedState =>
    match savedState with
    | none =>
      .ok (failureRes "No active demo user found in the session to reset the password for.", s)
    | some st =>
      if !(jsTruthy st.provisionResult && jsTruthyO (jsGet st.provisionResult "email")) then
        .ok (failureRes "No active demo user found in the session to reset the password for.", s)
      else
        let token := getAdminAccessToken_v3 service
        if jsStrFalsy token then
          .ok (failureRes "Authentication failed. Could not get token to reset password.", s)
        else
          let newPassword := generateRandomPassword_ 14 rand shuffle
          match updateOutcome with
          | .netError _ =>
            .ok (failureRes "A network exception occurred during password reset.", s)
          | .response code _ =>
            if code = 200 then
              let pr := jsSet st.provisionResult "password" (Json.str newPassword)
              .ok (Json.obj [("success", Json.bool true),
                             ("password", Json.str newPassword)],
                   saveDemoState (some pr) st.demoScript s)
            else
              .ok (failureRes ("Failed to reset password. Admin API responded with code "
                    ++ toString code ++ "."), s)

/-- The admin-directory URL a deletion fetches. -/
def deleteUserUrlFor (email : String) : String :=
  "https://admin.googleapis.com/admin/directory/v1/users/" ++ email

/-- `deleteDemoAccount` of revision 1 (Code.js 267-301).  The third
component of the result lists the URLs actually fetched, so that the
no-call guarantees are expressible.  204 and 404 both succeed and clear
the state; other codes fail without touching the state. -/
def deleteDemoAccount_v1 (userEmail : Option String) (service : Option String)
    (deleteOutcome : FetchOutcome) (s : Store) :
    Except String (Json × Store × List String) :=
  if jsStrFalsy userEmail then
    .ok (failureRes "No user email provided for deletion.", s, [])
  else
    match getAdminAccessToken_v1 service with
    | .error e => .error e
    | .ok token =>
      if token = "" then
        .ok (failureRes "Authentication failed. Could not get token to delete user.", s, [])
      else
        let url := deleteUserUrlFor ((userEmail).getD "")
        match deleteOutcome with
        | .netError _ =>
          .ok (failureRes "A network exception occurred during deletion.", s, [url])
        | .response code _ =>
          if code = 204 || code = 404 then
            .ok (successDeleteRes, clearDemoState s, [url])
          else
            .ok (failureRes ("Failed to delete user. Admin API responded with code "
                  ++ toString code ++ "."), s, [url])

/-- `deleteDemoAccount` of revision 3 (Code.js 1338-1374): identical
control flow, but its `getAdminAccessToken` returns `null` instead of
throwing, so the operation is total. -/
def deleteDemoAccount_v3 (userEmail : Option String) (service : Option String)
    (deleteOutcome : FetchOutcome) (s : Store) : Json × Store × List String :=
  if jsStrFalsy userEmail then
    (failureRes "No user email provided for deletion.", s, [])
  else
    let token := getAdminAccessToken_v3 service
    if jsStrFalsy token then
      (failureRes "Authentication failed. Could not get token to delete user.", s, [])
    else
      let url := deleteUserUrlFor ((userEmail).getD "")
      match deleteOutcome with
      | .netError _ =>
        (failureRes "A network exception occurred during deletion.", s, [url])
      | .response code _ =>
        if code = 204 || code = 404 then
          (successDeleteRes, clearDemoState s, [url])
        else
          (failureRes ("Failed to delete user. Admin API responded with code "
                ++ toString code ++ "."), s, [url])

/-- Directory-side semantics of `DELETE /users/{email}` (spec section
4.2 and the Admin SDK contract): deleting an existing account responds
204 and removes it, deleting an absent account responds 404. -/
def dirDeleteResponse (dir : List String) (email : String) : Nat × List String :=
  if email ∈ dir then (204, dir.erase email) else (404, dir)

/-- A provision result as stored after a password-bearing save: the
freshly created account record with password `"X"`. -/
def storedPrX : Json :=
  Json.obj [("email", Json.str "janedoe@cymbal.se"), ("password", Json.str "X"),
            ("firstName", Json.str "Jane"), ("lastName", Json.str "Doe")]

/-- C1: the claim says load after save of a password-bearing provision
result yields a result with no password field.  Revision 1
(Code.js 336-355) violates this: after `saveDemoState` stores a
provision result whose password field is `"X"`, `loadDemoState_v1`
returns that provision result with the password `"X"` intact, while the
revision-3 load (Code.js 1295-1312) deletes the truthy password field
as the spec requires.  This evaluates the code at the failing input. -/
theorem C1_load_returns_stored_password :
    saveDemoState (some storedPrX) none ⟨none, none⟩ = ⟨some (some storedPrX), none⟩
    ∧ (loadDemoState_v1 ⟨some (some storedPrX), none⟩).1 = some ⟨storedPrX, none⟩
    ∧ jsGet storedPrX "password" = some (Json.str "X")
    ∧ loadDemoState_v3 ⟨some (some storedPrX), none⟩
        = .ok (some ⟨jsDelete storedPrX "password", none⟩)
    ∧ jsGet (jsDelete storedPrX "password") "password" = none := by
  refine ⟨rfl, rfl, rfl, rfl, rfl⟩

/-- C8 counterexample: the claim says a corrupted stored record makes
loading behave as if no state existed (return None, clear, no error),
and cites the revision-3 load (Code.js 1295-1312); but that revision
has no try/catch, so the `JSON.parse` exception propagates to the
caller instead. -/
theorem C8_v3_corrupt_counterexample :
    loadDemoState_v3 ⟨some none, none⟩ ≠ .ok none
    ∧ loadDemoState_v3 ⟨some none, none⟩
        = .error "SyntaxError: Unexpected token in JSON" := by
  refine ⟨by simp [loadDemoState_v3], rfl⟩

/-- C8 amended: in the revisions whose `loadDemoState` wraps parsing in
try/catch (Code.js 336-355 and 813-836), a corrupted stored
provision-result string makes loading behave exactly as if no state
existed: it returns None, clears both stored properties, and (being a
total function here) surfaces no error; the revision at
Code.js 1295-1312 instead propagates the parse exception. -/
theorem C8_corrupt_clears_amended (ds : Option (Option Json)) :
    loadDemoState_v1 ⟨some none, ds⟩ = (none, ⟨none, none⟩)
    ∧ (∀ pr : Json, loadDemoState_v1 ⟨some (some pr), some none⟩ = (none, ⟨none, none⟩)) := by
  exact ⟨rfl, fun pr => rfl⟩

/-- C8 witness: the amended behaviour at a concrete corrupt store that
still holds a (parsable) script slot. -/
theorem C8_corrupt_clears_amended_witness :
    loadDemoState_v1 ⟨some none, some (some minimalScript)⟩ = (none, ⟨none, none⟩)
    ∧ loadDemoState_v1 ⟨some (some minimalScript), some none⟩ = (none, ⟨none, none⟩) :=
  ⟨(C8_corrupt_clears_amended (some (some minimalScript))).1,
   (C8_corrupt_clears_amended (some (some minimalScript))).2 minimalScript⟩

/-- C3 counterexample: `mawi@google.com` is a valid requester email
(non-empty, contains `@`), yet in the revisions at Code.js 948-952 and
1423-1426 the derived demo address depends on a random draw — two calls
can return different addresses — and neither equals the spec formula
(stripped lower-cased local part plus the fixed domain). -/
theorem C3_mawi_counterexample :
    derivedEmail_v2 "mawi@google.com" 0 ≠ derivedEmail_v2 "mawi@google.com" 1
    ∧ derivedEmail_v2 "mawi@google.com" 0 ≠ specDemoAddress "mawi@google.com" "cymbal.se"
    ∧ derivedEmail_v2 "mawi@google.com" 0 = "mawi0@cymbal.se"
    ∧ derivedEmail_v2 "mawi@google.com" 1 = "mawi1@cymbal.se"
    ∧ specDemoAddress "mawi@google.com" "cymbal.se" = "mawi@cymbal.se" := by
  refine ⟨by decide, by decide, by decide, by decide, by decide⟩

/-- C3 amended: for every requester email the revision-1 derivation
(Code.js 439-440) is deterministic (a pure function) and equals the
spec formula — local part lower-cased, stripped of every character
outside `[a-z0-9]`, plus `@` and the primary domain — and the
revision-2/3 derivation agrees with it, and is independent of the
random draw, for every email other than `mawi@google.com`. -/
theorem C3_derivation_amended (email domain : String) (r r' : Nat)
    (hm : email ≠ "mawi@google.com") :
    derivedEmail_v1 email domain = specDemoAddress email domain
    ∧ derivedEmail_v2 email r = derivedEmail_v2 email r'
    ∧ derivedEmail_v2 email r = specDemoAddress email "cymbal.se" := by
  refine ⟨rfl, ?_, ?_⟩
  · simp [derivedEmail_v2, demoLocalPart_v2, hm]
  · simp [derivedEmail_v2, demoLocalPart_v2, hm]
    rfl

/-- C3 witness: the end-to-end example requester of the spec. -/
theorem C3_derivation_amended_witness :
    ("jane.doe@example.com" : String) ≠ "mawi@google.com"
    ∧ (derivedEmail_v1 "jane.doe@example.com" "cymbal.se"
        = specDemoAddress "jane.doe@example.com" "cymbal.se"
      ∧ derivedEmail_v2 "jane.doe@example.com" 0 = derivedEmail_v2 "jane.doe@example.com" 999
      ∧ derivedEmail_v2 "jane.doe@example.com" 0 = specDemoAddress "jane.doe@example.com" "cymbal.se")
    ∧ derivedEmail_v1 "jane.doe@example.com" "cymbal.se" = "janedoe@cymbal.se" := by
  exact ⟨by decide, C3_derivation_amended "jane.doe@example.com" "cymbal.se" 0 999 (by decide),
    by decide⟩

/-- Whether an operation finished normally (no uncaught exception). -/
def isOkE {ε α : Type} : Except ε α → Bool
  | .ok _ => true
  | .error _ => false

/-- `List.getD` at an in-range index is a member of the list. -/
lemma getD_mem {α : Type} (l : List α) (i : Nat) (d : α) (h : i < l.length) :
    l.getD i d ∈ l := by
  rw [List.getD_eq_getElem?_getD, List.getElem?_eq_getElem h]
  exact List.getElem_mem h

/-- The revision-1 load leaves the store untouched unless a stored slot
is corrupt. -/
lemma loadDemoState_v1_preserves (s : Store)
    (hpr : s.savedProvisionResult ≠ some none)
    (hds : s.savedDemoScript ≠ some none) :
    (loadDemoState_v1 s).2 = s := by
  rcases s with ⟨spr, sds⟩
  rcases spr with _ | (_ | pr)
  · rfl
  · exact absurd rfl hpr
  · rcases sds with _ | (_ | d)
    · rfl
    · exact absurd rfl hds
    · rfl

/-- Revision-1 script generation either reports success or leaves the
store exactly as the load left it. -/
lemma gen_v1_store_cases (gem : GemResult) (s : Store) :
    jsGet (generateDemoScript_v1 gem s).1 "success" = some (Json.bool true)
    ∨ (generateDemoScript_v1 gem s).2 = (loadDemoState_v1 s).2 := by
  unfold generateDemoScript_v1
  cases h : loadDemoState_v1 s with
  | mk savedState s1 =>
    cases savedState with
    | none => right; rfl
    | some st =>
      cases gem with
      | failure err => right; rfl
      | success textParse textTruthy =>
        cases textTruthy with
        | false => right; rfl
        | true =>
          cases textParse with
          | none => right; rfl
          | some scriptObject =>
            by_cases hok : scriptShapeOk scriptObject
            · left; simp [hok, jsGet, lookupField]
            · right; simp [hok]

/-- A minimal valid script payload. -/
def minimalScript : Json :=
  Json.obj [("title", Json.str "T"), ("steps", Json.arr [])]

/-- C4 counterexample: the claim says no failure path of
`generateDemoScript` writes the state store.  But when the stored
provision result is corrupted (not parsable) while a valid script is
still stored, the revision-1 load (called first by
`generateDemoScript`, Code.js 209) catches the parse error and clears
BOTH properties; `generateDemoScript` then reports the missing-user
failure, and the previously persisted script is gone. -/
theorem C4_corrupt_state_counterexample :
    (⟨some none, some (some minimalScript)⟩ : Store).savedDemoScript
      = some (some minimalScript)
    ∧ generateDemoScript_v1 (.failure "model error")
        ⟨some none, some (some minimalScript)⟩
      = (failureRes "No demo user found. Please create a demo account first.",
         ⟨none, none⟩)
    ∧ (⟨none, none⟩ : Store).savedDemoScript ≠ some (some minimalScript) := by
  refine ⟨rfl, rfl, by simp⟩

/-- C4 amended: for every failure of `generateDemoScript` (missing
persisted user, model-call failure, unparsable model output, or
schema-validation failure) the state store is not written — provided
neither stored slot is corrupted.  (When a stored slot is corrupt, the
load step itself clears the whole record, per the corruption-handling
policy, before the missing-user failure is reported.) -/
theorem C4_failure_preserves_store (gem : GemResult) (s : Store)
    (hpr : s.savedProvisionResult ≠ some none)
    (hds : s.savedDemoScript ≠ some none)
    (hfail : jsGet (generateDemoScript_v1 gem s).1 "success" ≠ some (Json.bool true)) :
    (generateDemoScript_v1 gem s).2 = s := by
  rcases gen_v1_store_cases gem s with h | h
  · exact absurd h hfail
  · rw [h]
    exact loadDemoState_v1_preserves s hpr hds

/-- C4 witness: a model failure on an empty store leaves the store
unchanged. -/
theorem C4_failure_preserves_store_witness :
    ((⟨none, none⟩ : Store).savedProvisionResult ≠ some none)
    ∧ ((⟨none, none⟩ : Store).savedDemoScript ≠ some none)
    ∧ jsGet (generateDemoScript_v1 (.failure "model error") ⟨none, none⟩).1 "success"
        ≠ some (Json.bool true)
    ∧ (generateDemoScript_v1 (.failure "model error") ⟨none, none⟩).2 = ⟨none, none⟩ := by
  refine ⟨by simp, by simp, ?_, ?_⟩
  · show jsGet (failureRes "No demo user found. Please create a demo account first.") "success"
        ≠ some (Json.bool true)
    simp [failureRes, jsGet, lookupField]
  · exact C4_failure_preserves_store (.failure "model error") ⟨none, none⟩ (by simp) (by simp)
      (by show jsGet (failureRes "No demo user found. Please create a demo account first.") "success"
            ≠ some (Json.bool true)
          simp [failureRes, jsGet, lookupField])

/-- A stored provision result without a password field, as revision-3
load leaves it. -/
def prNoPassword : Json :=
  Json.obj [("email", Json.str "janedoe@cymbal.se"),
            ("firstName", Json.str "Jane"), ("lastName", Json.str "Doe")]

/-- C5: script validation is shape-only.  For every model text that is
not valid JSON, `generateDemoScript` fails with the parse-error
message; after a successful parse it fails when `title` is missing,
when `steps` is missing, or when `steps` is not an array; a payload
passing the shape check — in particular the minimal
`{title:"T", steps:[]}` — is accepted and saved, with no further
per-field checks (acceptance is exactly `scriptShapeOk`).  Covered for
the revision-1 operation (Code.js 235-259) and the revision-3 one
(Code.js 1253-1279), which differ only in the failure message. -/
theorem C5_script_validation (pr jt js ja jbad jgood : Json) (s : Store)
    (hp : s.savedProvisionResult = some (some pr))
    (hd : s.savedDemoScript = none)
    (ht : jsGet jt "title" = none)
    (hs2 : jsGet js "steps" = none)
    (ha : jsIsArray (jsGet ja "steps") = false)
    (hbad : scriptShapeOk jbad = false)
    (hgood : scriptShapeOk jgood = true)
    (htr : jsTruthy pr = true)
    (hnn : jsIsNull pr = false)
    (hnp : jsGet pr "password" = none) :
    generateDemoScript_v1 (.success none true) s
      = (failureRes "The AI returned malformed data that could not be read. Please try again.", s)
    ∧ scriptShapeOk jt = false
    ∧ scriptShapeOk js = false
    ∧ scriptShapeOk ja = false
    ∧ generateDemoScript_v1 (.success (some jbad) true) s
      = (failureRes "The AI returned malformed data that could not be read. Please try again.", s)
    ∧ generateDemoScript_v1 (.success (some jgood) true) s
      = (Json.obj [("success", Json.bool true), ("demoScript", jgood)],
         saveDemoState (some pr) (some jgood) s)
    ∧ scriptShapeOk minimalScript = true
    ∧ generateDemoScript_v3 (.success (some jbad) true) s
      = .ok (failureRes "The AI response was missing the required title or steps fields. Please try generating the script again.", s)
    ∧ generateDemoScript_v3 (.success (some jgood) true) s
      = .ok (Json.obj [("success", Json.bool true), ("demoScript", jgood)],
             saveDemoState (some pr) (some jgood) s) := by
  rcases s with ⟨spr, sds⟩
  cases hp
  cases hd
  refine ⟨?_, ?_, ?_, ?_, ?_, ?_, ?_, ?_, ?_⟩
  · simp [generateDemoScript_v1, loadDemoState_v1]
  · simp [scriptShapeOk, ht, jsTruthyO]
  · simp [scriptShapeOk, hs2, jsTruthyO, jsIsArray]
  · cases hsv : jsGet ja "steps" with
    | none => simp [scriptShapeOk, hsv, jsTruthyO]
    | some v =>
      rw [hsv] at ha
      simp [scriptShapeOk, hsv, ha]
  · simp [generateDemoScript_v1, loadDemoState_v1, hbad]
  · simp [generateDemoScript_v1, loadDemoState_v1, hgood]
  · rfl
  · simp [generateDemoScript_v3, loadDemoState_v3, hnn, stripTruthyPassword, hnp, htr, hbad]
  · simp [generateDemoScript_v3, loadDemoState_v3, hnn, stripTruthyPassword, hnp, htr, hgood]

/-- C5 witness: concrete payloads exercising every branch of the shape
contract, on a store holding a password-free provision result. -/
theorem C5_script_validation_witness :
    ((⟨some (some prNoPassword), none⟩ : Store).savedProvisionResult
        = some (some prNoPassword)
      ∧ (⟨some (some prNoPassword), none⟩ : Store).savedDemoScript = none
      ∧ jsGet (Json.obj []) "title" = none
      ∧ jsGet (Json.obj [("title", Json.str "T")]) "steps" = none
      ∧ jsIsArray (jsGet (Json.obj [("title", Json.str "T"), ("steps", Json.str "x")]) "steps")
          = false
      ∧ scriptShapeOk (Json.obj []) = false
      ∧ scriptShapeOk minimalScript = true
      ∧ jsTruthy prNoPassword = true
      ∧ jsIsNull prNoPassword = false
      ∧ jsGet prNoPassword "password" = none)
    ∧ generateDemoScript_v1 (.success (some minimalScript) true)
        ⟨some (some prNoPassword), none⟩
      = (Json.obj [("success", Json.bool true), ("demoScript", minimalScript)],
         saveDemoState (some prNoPassword) (some minimalScript)
           ⟨some (some prNoPassword), none⟩)
    ∧ generateDemoScript_v1 (.success none true) ⟨some (some prNoPassword), none⟩
      = (failureRes "The AI returned malformed data that could not be read. Please try again.",
         ⟨some (some prNoPassword), none⟩) := by
  refine ⟨⟨rfl, rfl, rfl, rfl, rfl, rfl, rfl, rfl, rfl, rfl⟩, ?_, ?_⟩
  · exact (C5_script_validation prNoPassword (Json.obj []) (Json.obj [("title", Json.str "T")])
      (Json.obj [("title", Json.str "T"), ("steps", Json.str "x")]) (Json.obj []) minimalScript
      ⟨some (some prNoPassword), none⟩ rfl rfl rfl rfl rfl rfl rfl rfl rfl rfl).2.2.2.2.2.1
  · exact (C5_script_validation prNoPassword (Json.obj []) (Json.obj [("title", Json.str "T")])
      (Json.obj [("title", Json.str "T"), ("steps", Json.str "x")]) (Json.obj []) minimalScript
      ⟨some (some prNoPassword), none⟩ rfl rfl rfl rfl rfl rfl rfl rfl rfl rfl).1

/-- C6: deletion is idempotent.  With a provided email and a usable
token, `deleteDemoAccount` reports success and clears all persisted
state both on 204 (deleted) and on 404 (already absent); every other
response code yields a failure result and leaves the state untouched;
and under the directory semantics of `DELETE` (204 removes, 404 for an
absent account), delete immediately followed by delete on the same
email both report success. -/
theorem C6_delete_idempotent (email tk : String) (svc : Option String) (s : Store)
    (body : Json) (code : Nat) (dir : List String)
    (he : email ≠ "") (hsvc : svc = some tk) (htk : tk ≠ "")
    (hc1 : code ≠ 204) (hc2 : code ≠ 404) :
    deleteDemoAccount_v1 (some email) svc (.response 204 body) s
      = .ok (successDeleteRes, ⟨none, none⟩, [deleteUserUrlFor email])
    ∧ deleteDemoAccount_v1 (some email) svc (.response 404 body) s
      = .ok (successDeleteRes, ⟨none, none⟩, [deleteUserUrlFor email])
    ∧ deleteDemoAccount_v1 (some email) svc (.response code body) s
      = .ok (failureRes ("Failed to delete user. Admin API responded with code "
            ++ toString code ++ "."), s, [deleteUserUrlFor email])
    ∧ deleteDemoAccount_v1 (some email) svc
        (.response (dirDeleteResponse dir email).1 body) s
      = .ok (successDeleteRes, ⟨none, none⟩, [deleteUserUrlFor email])
    ∧ deleteDemoAccount_v1 (some email) svc
        (.response (dirDeleteResponse (dirDeleteResponse dir email).2 email).1 body)
        ⟨none, none⟩
      = .ok (successDeleteRes, ⟨none, none⟩, [deleteUserUrlFor email]) := by
  subst hsvc
  have hfal : jsStrFalsy (some email) = false := by simp [jsStrFalsy, he]
  have key : ∀ (c : Nat) (st : Store), c = 204 ∨ c = 404 →
      deleteDemoAccount_v1 (some email) (some tk) (.response c body) st
        = .ok (successDeleteRes, ⟨none, none⟩, [deleteUserUrlFor email]) := by
    intro c st hc
    have hcc : (decide (c = 204) || decide (c = 404)) = true := by
      rcases hc with h | h <;> simp [h]
    simp [deleteDemoAccount_v1, hfal, getAdminAccessToken_v1, htk, hcc, clearDemoState]
  have hdir : ∀ d : List String,
      (dirDeleteResponse d email).1 = 204 ∨ (dirDeleteResponse d email).1 = 404 := by
    intro d
    by_cases hm : email ∈ d <;> simp [dirDeleteResponse, hm]
  refine ⟨key 204 s (Or.inl rfl), key 404 s (Or.inr rfl), ?_,
    key _ s (hdir dir), key _ _ (hdir _)⟩
  have hcc : (decide (code = 204) || decide (code = 404)) = false := by
    simp [hc1, hc2]
  simp [deleteDemoAccount_v1, hfal, getAdminAccessToken_v1, htk, hcc]

/-- C6 witness: deleting `janedoe@cymbal.se` twice against a directory
that initially contains it, plus a failing 500 response. -/
theorem C6_delete_idempotent_witness :
    (("janedoe@cymbal.se" : String) ≠ "" ∧ (some "tok" : Option String) = some "tok"
      ∧ ("tok" : String) ≠ "" ∧ (500 : Nat) ≠ 204 ∧ (500 : Nat) ≠ 404)
    ∧ (deleteDemoAccount_v1 (some "janedoe@cymbal.se") (some "tok")
        (.response (dirDeleteResponse ["janedoe@cymbal.se"] "janedoe@cymbal.se").1 Json.null)
        ⟨some (some storedPrX), none⟩
      = .ok (successDeleteRes, ⟨none, none⟩, [deleteUserUrlFor "janedoe@cymbal.se"])
    ∧ deleteDemoAccount_v1 (some "janedoe@cymbal.se") (some "tok")
        (.response (dirDeleteResponse
            (dirDeleteResponse ["janedoe@cymbal.se"] "janedoe@cymbal.se").2
            "janedoe@cymbal.se").1 Json.null)
        ⟨none, none⟩
      = .ok (successDeleteRes, ⟨none, none⟩, [deleteUserUrlFor "janedoe@cymbal.se"])
    ∧ deleteDemoAccount_v1 (some "janedoe@cymbal.se") (some "tok")
        (.response 500 Json.null) ⟨some (some storedPrX), none⟩
      = .ok (failureRes ("Failed to delete user. Admin API responded with code "
            ++ toString (500 : Nat) ++ "."),
         ⟨some (some storedPrX), none⟩, [deleteUserUrlFor "janedoe@cymbal.se"])) := by
  refine ⟨⟨by decide, rfl, by decide, by decide, by decide⟩, ?_, ?_, ?_⟩
  · exact (C6_delete_idempotent "janedoe@cymbal.se" "tok" (some "tok")
      ⟨some (some storedPrX), none⟩ Json.null 500 ["janedoe@cymbal.se"]
      (by decide) rfl (by decide) (by decide) (by decide)).2.2.2.1
  · exact (C6_delete_idempotent "janedoe@cymbal.se" "tok" (some "tok")
      ⟨some (some storedPrX), none⟩ Json.null 500 ["janedoe@cymbal.se"]
      (by decide) rfl (by decide) (by decide) (by decide)).2.2.2.2
  · exact (C6_delete_idempotent "janedoe@cymbal.se" "tok" (some "tok")
      ⟨some (some storedPrX), none⟩ Json.null 500 ["janedoe@cymbal.se"]
      (by decide) rfl (by decide) (by decide) (by decide)).2.2.1

/-- C10: for every falsy `userEmail` argument (null/undefined or the
empty string), `deleteDemoAccount` — in both the revision at
Code.js 267-270 and the one at 1339-1341 — returns the fixed
`{success:false, error:"No user email provided for deletion."}`
immediately: the persisted state is unmodified and no directory URL is
fetched (empty call trace). -/
theorem C10_falsy_email_guard (ue : Option String) (svc svc3 : Option String)
    (o o3 : FetchOutcome) (s s3 : Store)
    (hf : jsStrFalsy ue = true) :
    deleteDemoAccount_v1 ue svc o s
      = .ok (failureRes "No user email provided for deletion.", s, [])
    ∧ deleteDemoAccount_v3 ue svc3 o3 s3
      = (failureRes "No user email provided for deletion.", s3, []) := by
  constructor <;> simp [deleteDemoAccount_v1, deleteDemoAccount_v3, hf]

/-- C10 witness: the guard fires for `null` and for the empty string. -/
theorem C10_falsy_email_guard_witness :
    (jsStrFalsy none = true ∧ jsStrFalsy (some "") = true)
    ∧ deleteDemoAccount_v1 none (some "tok") (.response 204 Json.null)
        ⟨some (some storedPrX), none⟩
      = .ok (failureRes "No user email provided for deletion.",
         ⟨some (some storedPrX), none⟩, [])
    ∧ deleteDemoAccount_v3 (some "") (some "tok") (.response 204 Json.null) ⟨none, none⟩
      = (failureRes "No user email provided for deletion.", ⟨none, none⟩, []) := by
  refine ⟨⟨rfl, rfl⟩, ?_, ?_⟩
  · exact (C10_falsy_email_guard none (some "tok") (some "tok")
      (.response 204 Json.null) (.response 204 Json.null)
      ⟨some (some storedPrX), none⟩ ⟨none, none⟩ rfl).1
  · exact (C10_falsy_email_guard (some "") (some "tok") (some "tok")
      (.response 204 Json.null) (.response 204 Json.null)
      ⟨none, none⟩ ⟨none, none⟩ rfl).2

/-- C9: every password `generateRandomPassword_(14)` produces is
exactly 14 characters long and contains at least one uppercase letter,
one lowercase letter, one digit and one symbol from `!@#$%^&*()` — the
final sort-with-random-comparator only permutes the characters. -/
theorem C9_password_charset (rand : Nat → Nat) (shuffle : List Char → List Char)
    (hshuffle : ∀ l : List Char, List.Perm (shuffle l) l) :
    (generateRandomPassword_ 14 rand shuffle).length = 14
    ∧ (∃ c ∈ (generateRandomPassword_ 14 rand shuffle).toList, 'A' ≤ c ∧ c ≤ 'Z')
    ∧ (∃ c ∈ (generateRandomPassword_ 14 rand shuffle).toList, 'a' ≤ c ∧ c ≤ 'z')
    ∧ (∃ c ∈ (generateRandomPassword_ 14 rand shuffle).toList, '0' ≤ c ∧ c ≤ '9')
    ∧ (∃ c ∈ (generateRandomPassword_ 14 rand shuffle).toList,
        c ∈ "!@#$%^&*()".toList) := by
  have hperm := hshuffle (passwordChars 14 rand)
  have hmem : ∀ c : Char, c ∈ passwordChars 14 rand →
      c ∈ (generateRandomPassword_ 14 rand shuffle).toList := by
    intro c hc
    exact hperm.mem_iff.mpr hc
  have hin : ∀ (str : String) (i : Nat), str.toList.length ≠ 0 →
      pwPick rand str i ∈ str.toList := by
    intro str i h
    exact getD_mem _ _ _ (Nat.mod_lt _ (Nat.pos_of_ne_zero h))
  refine ⟨?_, ?_, ?_, ?_, ?_⟩
  · show (shuffle (passwordChars 14 rand)).length = 14
    rw [hperm.length_eq]
    simp [passwordChars]
  · refine ⟨pwPick rand "ABCDEFGHIJKLMNOPQRSTUVWXYZ" 0, hmem _ (by simp [passwordChars]), ?_⟩
    have hall : ∀ c ∈ "ABCDEFGHIJKLMNOPQRSTUVWXYZ".toList, 'A' ≤ c ∧ c ≤ 'Z' := by decide
    exact hall _ (hin "ABCDEFGHIJKLMNOPQRSTUVWXYZ" 0 (by decide))
  · refine ⟨pwPick rand "abcdefghijklmnopqrstuvwxyz" 1, hmem _ (by simp [passwordChars]), ?_⟩
    have hall : ∀ c ∈ "abcdefghijklmnopqrstuvwxyz".toList, 'a' ≤ c ∧ c ≤ 'z' := by decide
    exact hall _ (hin "abcdefghijklmnopqrstuvwxyz" 1 (by decide))
  · refine ⟨pwPick rand "0123456789" 2, hmem _ (by simp [passwordChars]), ?_⟩
    have hall : ∀ c ∈ "0123456789".toList, '0' ≤ c ∧ c ≤ '9' := by decide
    exact hall _ (hin "0123456789" 2 (by decide))
  · exact ⟨pwPick rand "!@#$%^&*()" 3, hmem _ (by simp [passwordChars]),
      hin "!@#$%^&*()" 3 (by decide)⟩

/-- C9 witness: the guarantee evaluated under the identity shuffle and
the all-zero random stream. -/
theorem C9_password_charset_witness :
    (∀ l : List Char, List.Perm (id l) l)
    ∧ ((generateRandomPassword_ 14 (fun _ => 0) id).length = 14
      ∧ (∃ c ∈ (generateRandomPassword_ 14 (fun _ => 0) id).toList, 'A' ≤ c ∧ c ≤ 'Z')
      ∧ (∃ c ∈ (generateRandomPassword_ 14 (fun _ => 0) id).toList, 'a' ≤ c ∧ c ≤ 'z')
      ∧ (∃ c ∈ (generateRandomPassword_ 14 (fun _ => 0) id).toList, '0' ≤ c ∧ c ≤ '9')
      ∧ (∃ c ∈ (generateRandomPassword_ 14 (fun _ => 0) id).toList,
          c ∈ "!@#$%^&*()".toList)) :=
  ⟨fun l => List.Perm.refl l,
   C9_password_charset (fun _ => 0) id (fun l => List.Perm.refl l)⟩

/-- With a present OAuth2 service, `createDemoUserInRoot` (revision 1)
always finishes normally, whatever the directory responds. -/
lemma createDemoUserInRoot_v1_ok (requester firstName lastName domain tk : String)
    (co cr : FetchOutcome) (rand : Nat → Nat) (shuffle : List Char → List Char) :
    ∃ j, createDemoUserInRoot_v1 requester firstName lastName (some tk) domain
        co cr rand shuffle = .ok j := by
  simp only [createDemoUserInRoot_v1, getAdminAccessToken_v1]
  repeat' split
  all_goals exact ⟨_, rfl⟩

/-- C2 counterexample: the claim says no public operation terminates
abnormally, for every outcome of its lower-level calls.  Two escape
routes exist.  (a) In the revisions whose `getAdminAccessToken` throws
(Code.js 595-603; likewise 1090-1098) the call sits outside every try
block of `getInitialAppState`, so when the OAuth2 service is
unavailable the public operation terminates with the thrown error.
(b) In revision 3, `generateDemoScript` (Code.js 1229) and
`resetPasswordForDemoUser` (Code.js 1169) call the revision-3
`loadDemoState` (1295-1312, no try/catch) outside any try block, so a
corrupt stored record propagates the `JSON.parse` exception out of
both public operations. -/
theorem C2_token_throw_counterexample :
    getInitialAppState_v1 "jane.doe@example.com" none "cymbal.se"
        (.response 404 Json.null) ⟨none, none⟩
      = .error "Could not get a valid OAuth2 service object. Check server logs for details."
    ∧ isOkE (getInitialAppState_v1 "jane.doe@example.com" none "cymbal.se"
        (.response 404 Json.null) ⟨none, none⟩) = false
    ∧ generateDemoScript_v3 (.failure "model error") ⟨some none, none⟩
      = .error "SyntaxError: Unexpected token in JSON"
    ∧ isOkE (generateDemoScript_v3 (.failure "model error") ⟨some none, none⟩) = false
    ∧ resetPasswordForDemoUser_v3 (some "tok") (.response 200 Json.null) (fun _ => 0) id
        ⟨some none, none⟩
      = .error "SyntaxError: Unexpected token in JSON"
    ∧ isOkE (resetPasswordForDemoUser_v3 (some "tok") (.response 200 Json.null) (fun _ => 0) id
        ⟨some none, none⟩) = false := by
  exact ⟨rfl, rfl, rfl, rfl, rfl, rfl⟩

/-- C2 amended: every public operation returns a result object rather
than raising, for every outcome of its lower-level calls, EXCEPT (a)
token-acquisition failure in the revisions whose `getAdminAccessToken`
throws (Code.js 595-603, 1090-1098) — there the throw escapes
`getInitialAppState`, `createUser`, `resetPasswordForDemoUser` and
`deleteDemoAccount` — and (b) in revision 3, a corrupt stored record,
whose `JSON.parse` exception the revision-3 `loadDemoState` does not
catch, escaping `resetPasswordForDemoUser` and `generateDemoScript`.
Otherwise all five operations finish normally: the four
token-dependent revision-1 operations whenever the token call
succeeds; revision-1 `generateDemoScript` always (it acquires no admin
token, and every failure it returns carries an error message); and the
revision-3 `generateDemoScript` and `resetPasswordForDemoUser` (the
latter for every token outcome) whenever the stored record loads.  In
the revision whose `getAdminAccessToken` returns null (Code.js 1539),
token failure yields the uniform `{success:false, error}` shape, for
deletion and for password reset. -/
theorem C2_public_ops_no_raise (tk requester firstName lastName domain : String)
    (svc svc3r : Option String) (lk co cr upo delo o3 upo3 : FetchOutcome)
    (gem gem3 : GemResult)
    (rand : Nat → Nat) (shuffle : List Char → List Char)
    (s sgen s3 s3t : Store) (em : Option String)
    (hsvc : svc = some tk) (htk : tk ≠ "")
    (hload3 : isOkE (loadDemoState_v3 s3) = true) :
    isOkE (getInitialAppState_v1 requester svc domain lk s) = true
    ∧ isOkE (createUser_v1 firstName lastName requester svc domain co cr rand shuffle s) = true
    ∧ isOkE (resetPasswordForDemoUser_v1 svc upo rand shuffle s) = true
    ∧ isOkE (deleteDemoAccount_v1 em svc delo s) = true
    ∧ (jsGet (generateDemoScript_v1 gem sgen).1 "success" = some (Json.bool true)
       ∨ ∃ m, jsGet (generateDemoScript_v1 gem sgen).1 "error" = some (Json.str m))
    ∧ isOkE (generateDemoScript_v3 gem3 s3) = true
    ∧ isOkE (resetPasswordForDemoUser_v3 svc3r upo3 rand shuffle s3) = true
    ∧ getAdminAccessToken_v3 none = none
    ∧ deleteDemoAccount_v3 (some "user@cymbal.se") none o3 s3t
      = (failureRes "Authentication failed. Could not get token to delete user.", s3t, [])
    ∧ resetPasswordForDemoUser_v3 none upo3 rand shuffle ⟨some (some storedPrX), none⟩
      = .ok (failureRes "Authentication failed. Could not get token to reset password.",
             ⟨some (some storedPrX), none⟩) := by
  subst hsvc
  refine ⟨?_, ?_, ?_, ?_, ?_, ?_, ?_, rfl, rfl, rfl⟩
  · simp only [getInitialAppState_v1, getAdminAccessToken_v1]
    repeat' split
    all_goals rfl
  · simp only [createUser_v1]
    split
    · rfl
    · obtain ⟨j, hj⟩ := createDemoUserInRoot_v1_ok requester firstName lastName domain tk
        co cr rand shuffle
      rw [hj]
      split
      · rename_i heq
        exact absurd heq (by simp)
      · split <;> rfl
  · simp only [resetPasswordForDemoUser_v1, getAdminAccessToken_v1]
    repeat' split
    all_goals rfl
  · simp only [deleteDemoAccount_v1, getAdminAccessToken_v1]
    repeat' split
    all_goals rfl
  · unfold generateDemoScript_v1
    cases hload : loadDemoState_v1 sgen with
    | mk savedState s1 =>
      cases savedState with
      | none => right; exact ⟨_, rfl⟩
      | some st =>
        cases gem with
        | failure err => right; exact ⟨_, rfl⟩
        | success textParse textTruthy =>
          cases textTruthy with
          | false => right; exact ⟨_, rfl⟩
          | true =>
            cases textParse with
            | none => right; exact ⟨_, rfl⟩
            | some scriptObject =>
              by_cases hok : scriptShapeOk scriptObject
              · left; simp [hok, jsGet, lookupField]
              · right
                refine ⟨"The AI returned malformed data that could not be read. Please try again.", ?_⟩
                simp [hok, failureRes, jsGet, lookupField]
  · cases hl : loadDemoState_v3 s3 with
    | error e =>
      rw [hl] at hload3
      simp [isOkE] at hload3
    | ok savedState =>
      simp only [generateDemoScript_v3, hl]
      repeat' split
      all_goals rfl
  · cases hl : loadDemoState_v3 s3 with
    | error e =>
      rw [hl] at hload3
      simp [isOkE] at hload3
    | ok savedState =>
      simp only [resetPasswordForDemoUser_v3, hl]
      repeat' split
      all_goals rfl

/-- C2 witness: with a usable token and a loadable (empty) store, all
five operations finish normally on representative environments, the
revision-1 script-generation failure carries its error message, and
the revision-3 token failures give the uniform failure objects. -/
theorem C2_public_ops_no_raise_witness :
    ((some "tok" : Option String) = some "tok" ∧ ("tok" : String) ≠ ""
      ∧ isOkE (loadDemoState_v3 ⟨none, none⟩) = true)
    ∧ isOkE (getInitialAppState_v1 "jane.doe@example.com" (some "tok") "cymbal.se"
        (.response 404 Json.null) ⟨some (some storedPrX), none⟩) = true
    ∧ isOkE (createUser_v1 "Jane" "Doe" "jane.doe@example.com" (some "tok") "cymbal.se"
        (.response 404 Json.null) (.response 500 Json.null) (fun _ => 0) id
        ⟨some (some storedPrX), none⟩) = true
    ∧ isOkE (resetPasswordForDemoUser_v1 (some "tok") (.netError "down") (fun _ => 0) id
        ⟨some (some storedPrX), none⟩) = true
    ∧ isOkE (deleteDemoAccount_v1 (some "janedoe@cymbal.se") (some "tok")
        (.netError "down") ⟨some (some storedPrX), none⟩) = true
    ∧ (jsGet (generateDemoScript_v1 (.failure "model error") ⟨some (some storedPrX), none⟩).1
          "success" = some (Json.bool true)
       ∨ ∃ m, jsGet (generateDemoScript_v1 (.failure "model error")
          ⟨some (some storedPrX), none⟩).1 "error" = some (Json.str m))
    ∧ isOkE (generateDemoScript_v3 (.failure "model error") ⟨none, none⟩) = true
    ∧ isOkE (resetPasswordForDemoUser_v3 (some "tok") (.response 200 Json.null) (fun _ => 0) id
        ⟨none, none⟩) = true
    ∧ getAdminAccessToken_v3 none = none
    ∧ deleteDemoAccount_v3 (some "user@cymbal.se") none (.response 204 Json.null) ⟨none, none⟩
      = (failureRes "Authentication failed. Could not get token to delete user.",
         ⟨none, none⟩, [])
    ∧ resetPasswordForDemoUser_v3 none (.response 200 Json.null) (fun _ => 0) id
        ⟨some (some storedPrX), none⟩
      = .ok (failureRes "Authentication failed. Could not get token to reset password.",
             ⟨some (some storedPrX), none⟩) := by
  refine ⟨⟨rfl, by decide, rfl⟩, ?_⟩
  exact C2_public_ops_no_raise "tok" "jane.doe@example.com" "Jane" "Doe" "cymbal.se"
    (some "tok") (some "tok") (.response 404 Json.null) (.response 404 Json.null)
    (.response 500 Json.null) (.netError "down") (.netError "down") (.response 204 Json.null)
    (.response 200 Json.null) (.failure "model error") (.failure "model error") (fun _ => 0) id
    ⟨some (some storedPrX), none⟩ ⟨some (some storedPrX), none⟩ ⟨none, none⟩ ⟨none, none⟩
    (some "janedoe@cymbal.se") rfl (by decide) rfl

/-- The directory body `{name:{givenName, familyName}}` of the 200
contract (spec section 6). -/
def dirBody (g f : String) : Json :=
  Json.obj [("name", Json.obj [("givenName", Json.str g), ("familyName", Json.str f)])]

/-- The provision result `getInitialAppState` builds from a found
record: names from the directory, `password: null`. -/
def foundProvisionResult (email g f : String) : Json :=
  Json.obj [("email", Json.str email), ("password", Json.null),
            ("firstName", Json.str g), ("lastName", Json.str f)]

/-- The `{success:true, ...}` object `createDemoUserInRoot` returns for
a found record: names from the directory, `password: null`. -/
def foundUserRes (email g f : String) : Json :=
  Json.obj [("success", Json.bool true), ("email", Json.str email), ("password", Json.null),
            ("firstName", Json.str g), ("lastName", Json.str f)]

/-- C7: whenever the directory lookup finds an existing account
(HTTP 200 with the contract-shaped body), the resulting provision
result carries the found record's names and a `null` password — on the
`getInitialAppState` path (Code.js 78-100) and on the
`createUser`/`createDemoUserInRoot` path (Code.js 451-461) alike. -/
theorem C7_lookup_no_password (requester g f firstName lastName domain tk : String)
    (svc : Option String) (s : Store) (co : FetchOutcome)
    (rand : Nat → Nat) (shuffle : List Char → List Char)
    (hreq : requester ≠ "") (hsvc : svc = some tk) (htk : tk ≠ "")
    (hscript : s.savedDemoScript = none) :
    getInitialAppState_v1 requester svc domain (.response 200 (dirBody g f)) s
      = .ok (Json.obj [("success", Json.bool true),
          ("provisionResult", foundProvisionResult (derivedEmail_v1 requester domain) g f),
          ("demoScript", Json.null)],
         ⟨some (some (foundProvisionResult (derivedEmail_v1 requester domain) g f)), none⟩)
    ∧ createDemoUserInRoot_v1 requester firstName lastName svc domain
        (.response 200 (dirBody g f)) co rand shuffle
      = .ok (foundUserRes (derivedEmail_v1 requester domain) g f)
    ∧ jsGet (foundProvisionResult (derivedEmail_v1 requester domain) g f) "password"
        = some Json.null
    ∧ jsGet (foundUserRes (derivedEmail_v1 requester domain) g f) "password"
        = some Json.null := by
  subst hsvc
  rcases s with ⟨spr, sds⟩
  have hsd : sds = none := hscript
  subst hsd
  refine ⟨?_, ?_, rfl, rfl⟩
  · simp only [getInitialAppState_v1, getAdminAccessToken_v1]
    rw [if_neg hreq, if_neg htk]
    rfl
  · simp only [createDemoUserInRoot_v1, getAdminAccessToken_v1]
    rw [if_neg htk]
    rfl

/-- C7 witness: a concrete found account for the spec's example
requester. -/
theorem C7_lookup_no_password_witness :
    (("jane.doe@example.com" : String) ≠ "" ∧ (some "tok" : Option String) = some "tok"
      ∧ ("tok" : String) ≠ "" ∧ (⟨none, none⟩ : Store).savedDemoScript = none)
    ∧ getInitialAppState_v1 "jane.doe@example.com" (some "tok") "cymbal.se"
        (.response 200 (dirBody "Jane" "Doe")) ⟨none, none⟩
      = .ok (Json.obj [("success", Json.bool true),
          ("provisionResult",
            foundProvisionResult (derivedEmail_v1 "jane.doe@example.com" "cymbal.se") "Jane" "Doe"),
          ("demoScript", Json.null)],
         ⟨some (some (foundProvisionResult
            (derivedEmail_v1 "jane.doe@example.com" "cymbal.se") "Jane" "Doe")), none⟩)
    ∧ createDemoUserInRoot_v1 "jane.doe@example.com" "Jane" "Doe" (some "tok") "cymbal.se"
        (.response 200 (dirBody "Jane" "Doe")) (.response 500 Json.null) (fun _ => 0) id
      = .ok (foundUserRes (derivedEmail_v1 "jane.doe@example.com" "cymbal.se") "Jane" "Doe")
    ∧ jsGet (foundProvisionResult (derivedEmail_v1 "jane.doe@example.com" "cymbal.se")
        "Jane" "Doe") "password" = some Json.null := by
  refine ⟨⟨by decide, rfl, by decide, rfl⟩, ?_, ?_, ?_⟩
  · exact (C7_lookup_no_password "jane.doe@example.com" "Jane" "Doe" "Jane" "Doe" "cymbal.se"
      "tok" (some "tok") ⟨none, none⟩ (.response 500 Json.null) (fun _ => 0) id
      (by decide) rfl (by decide) rfl).1
  · exact (C7_lookup_no_password "jane.doe@example.com" "Jane" "Doe" "Jane" "Doe" "cymbal.se"
      "tok" (some "tok") ⟨none, none⟩ (.response 500 Json.null) (fun _ => 0) id
      (by decide) rfl (by decide) rfl).2.1
  · exact (C7_lookup_no_password "jane.doe@example.com" "Jane" "Doe" "Jane" "Doe" "cymbal.se"
      "tok" (some "tok") ⟨none, none⟩ (.response 500 Json.null) (fun _ => 0) id
      (by decide) rfl (by decide) rfl).2.2.1

end DemoGen
